import Mathlib

/-!
Verification of the Story Export Orchestrator core of the User-Story-Creation-Agent
repository: the effort estimator, the priority/component classifier, the ticket-client
error translation, the export orchestration invariants, and the legacy story-list
normalization in the UI layer.

Where a definition embeds code that ships in the repository (the estimator snippet in
the Jira customization guide, the axios response interceptor, the `UserStoryList`
normalization), it is translated directly from that source.  The backend export
service itself (`jira_service.py`) is not among the provided source files; the
orchestrator, the configurable classifier and the adapter-level error taxonomy are
therefore modelled from the specification, as marked in their doc comments.
-/

namespace StoryExport

/-- A generated story record: free-text narrative plus its acceptance criteria. -/
structure StoryRecord where
  story : String
  acceptance_criteria : List String
deriving DecidableEq, Repr

/-- Effort estimator, translated from `_estimate_story_points` in the Jira
customization guide: base 3 points, a bucket from the criteria count, +1 for a
narrative longer than 200 characters, a further +1 beyond 400, capped at 13. -/
def _estimate_story_points (story_data : StoryRecord) : Nat :=
  let base_points := 3
  let criteria_count := story_data.acceptance_criteria.length
  let points :=
    if criteria_count ≤ 2 then base_points
    else if criteria_count ≤ 4 then base_points + 2
    else if criteria_count ≤ 6 then base_points + 4
    else base_points + 6
  let points := if story_data.story.length > 200 then points + 1 else points
  let points := if story_data.story.length > 400 then points + 1 else points
  min points 13

/-- The criteria-count bucket exactly as the specification words it:
count ≤ 2 → +0; 3–4 → +2; 5–6 → +4; ≥7 → +6. -/
def specCriteriaBucket (c : Nat) : Nat :=
  if c ≤ 2 then 0 else if c ≤ 4 then 2 else if c ≤ 6 then 4 else 6

/-- The narrative-length bonus exactly as the specification words it:
length ≤ 200 → +0; 200 < length ≤ 400 → +1; length > 400 → +2. -/
def specLengthBonus (l : Nat) : Nat :=
  if 400 < l then 2 else if 200 < l then 1 else 0

/-- Closed form of the estimator, shared by the estimator theorems. -/
theorem estimate_closed_form (s : StoryRecord) :
    _estimate_story_points s =
      min 13 (3 + specCriteriaBucket s.acceptance_criteria.length +
        specLengthBonus s.story.length) := by
  simp only [_estimate_story_points, specCriteriaBucket, specLengthBonus]
  split_ifs <;> omega

/-- Character-wise lowercasing, the embedding of Python's `str.lower()` /
JavaScript's `toLowerCase()` on the narratives handled here. -/
def lowerString (s : String) : String :=
  String.mk (s.data.map Char.toLower)

/-- Substring containment, the embedding of Python's `word in story_text`. -/
def containsSubstr (s pat : String) : Bool :=
  decide (pat.toList <:+: s.toList)

/-- Modelled from the spec: `_determine_priority` of the ticket-export service
(`jira_service.py`, absent from the provided sources).  The priority defaults to
Medium and is upgraded when the lowercased narrative contains any term of the
configured urgent vocabulary, following the structure of the snippet documented in
the Jira customization guide; the vocabulary is a configuration input. -/
def _determine_priority (urgent_vocab : List String) (story_data : StoryRecord) : String :=
  let story_text := lowerString story_data.story
  if urgent_vocab.any (fun word => containsSubstr story_text word) then "High"
  else "Medium"

/-- The urgent vocabulary documented as the example configuration in the Jira
customization guide. -/
def defaultUrgentVocab : List String :=
  ["security", "login", "password", "critical"]

/-- Does a keyword-table entry match a (lowercased) narrative: any of its
keywords occurs in the text. -/
def entryMatches (story_text : String) (entry : List String × String) : Bool :=
  entry.1.any (fun word => containsSubstr story_text word)

/-- Modelled from the spec: `_determine_component` of the ticket-export service
(absent from the provided sources).  The keyword→label table is a configuration
input scanned in order — the first matching entry wins, mirroring the if/elif
chain of the snippet documented in the Jira customization guide — and the label
defaults to "General" when nothing matches. -/
def _determine_component (component_table : List (List String × String))
    (story_data : StoryRecord) : String :=
  let story_text := lowerString story_data.story
  match component_table.find? (fun entry => entryMatches story_text entry) with
  | some entry => entry.2
  | none => "General"

/-- The keyword→label table documented as the example configuration in the Jira
customization guide. -/
def defaultComponentTable : List (List String × String) :=
  [(["login", "user", "profile", "dashboard"], "User Management"),
   (["database", "data", "storage"], "Database"),
   (["api", "endpoint", "service"], "API")]

/-- The closed error taxonomy of the specification (§7). -/
inductive ErrorKind
  | validation
  | authentication
  | notFound
  | network
  | remoteRejected
deriving DecidableEq, Repr

/-- A translated error: a taxonomy kind plus a user-visible message. -/
structure TicketError where
  kind : ErrorKind
  message : String
deriving DecidableEq, Repr

/-- The failure shapes distinguished by the axios response interceptor in the
frontend service layer: the server responded with an error status (carrying an
optional structured `data.detail`), the request got no response at all, or the
failure happened before a request was made. -/
inductive HttpFailure
  | response (status : Nat) (detail : Option String)
  | request
  | setup (message : Option String)
deriving DecidableEq, Repr

/-- JavaScript's `a || b` on an optional string: the fallback is used when the
value is absent or empty (the empty string is falsy). -/
def jsOr (v : Option String) (fallback : String) : String :=
  match v with
  | some s => if s = "" then fallback else s
  | none => fallback

/-- The axios response interceptor, translated from the frontend service layer
(`api.interceptors.response.use`): every failure is rethrown as a fresh error
whose message is the server's `data.detail` when present, or a status-determined
canned message. -/
def interceptResponseError : HttpFailure → String
  | .response status detail =>
      if status = 400 then jsOr detail "Bad request"
      else if status = 404 then jsOr detail "Resource not found"
      else if status = 500 then jsOr detail "Internal server error"
      else jsOr detail ("HTTP " ++ toString status ++ " error")
  | .request => "No response from server. Please check your connection."
  | .setup message => jsOr message "An unexpected error occurred"

/-- Modelled from the spec: the TicketClient's translation of transport/HTTP
failures into the closed taxonomy (§7); the backend adapter itself is absent from
the provided sources.  Kinds follow the taxonomy (malformed request → Validation,
credentials rejected → Authentication, missing resource → NotFound, no response /
pre-request failure → Network, any other structured server rejection →
RemoteRejected); messages pass the external API's structured detail through. -/
def translateFailure : HttpFailure → TicketError
  | .response status detail =>
      if status = 400 then ⟨.validation, jsOr detail "Bad request"⟩
      else if status = 401 ∨ status = 403 then
        ⟨.authentication, jsOr detail ("HTTP " ++ toString status ++ " error")⟩
      else if status = 404 then ⟨.notFound, jsOr detail "Resource not found"⟩
      else if status = 500 then ⟨.remoteRejected, jsOr detail "Internal server error"⟩
      else ⟨.remoteRejected, jsOr detail ("HTTP " ++ toString status ++ " error")⟩
  | .request => ⟨.network, "No response from server. Please check your connection."⟩
  | .setup message => ⟨.network, jsOr message "An unexpected error occurred"⟩

/-- Reference to an externally created ticket: opaque key, optional URL. -/
structure IssueRef where
  key : String
  url : Option String
deriving DecidableEq, Repr

/-- Optional request to create a parent grouping ticket. -/
structure GroupSpec where
  name : String
  create : Bool
deriving DecidableEq, Repr

/-- Per-story result, recorded at the story's original input index. -/
inductive ExportOutcome
  | success (index : Nat) (ref : IssueRef)
  | failure (index : Nat) (err : TicketError)
deriving DecidableEq, Repr

/-- The original input index an outcome was recorded at. -/
def outcomeIndex : ExportOutcome → Nat
  | .success i _ => i
  | .failure i _ => i

/-- Whether an outcome is a success. -/
def isSuccessOutcome : ExportOutcome → Bool
  | .success _ _ => true
  | .failure _ _ => false

/-- Overall status of an export run. -/
inductive ExportStatus
  | allSucceeded
  | partialFailure
  | groupFailed
deriving DecidableEq, Repr

/-- Aggregate result of an export run. -/
structure ExportResult where
  group : Option IssueRef
  outcomes : List ExportOutcome
  total_exported : Nat
  total_failed : Nat
  status : ExportStatus
deriving DecidableEq, Repr

/-- A network call issued through the TicketClient during an export run. -/
inductive ClientCall
  | createGroupCall (name : String) (description : String)
  | createIssueCall (index : Nat) (summary : String) (priority : String)
      (component : String) (points : Nat)
deriving DecidableEq, Repr

/-- Whether a client call is a per-story issue creation. -/
def isIssueCall : ClientCall → Bool
  | .createIssueCall _ _ _ _ _ => true
  | .createGroupCall _ _ => false

/-- The external ticket system's predetermined responses: one for the group
creation, one per story index.  Quantifying the orchestrator theorems over this
oracle covers every pattern of remote success and failure. -/
structure TicketClientOracle where
  createGroupResp : String → String → Except TicketError IssueRef
  createIssueResp : Nat → Except TicketError IssueRef

/-- The grouping ticket's description, which the documentation shows carrying the
story count ("Parent task containing 3 user stories"). -/
def groupDescription (stories : List StoryRecord) : String :=
  "Parent task containing " ++ toString stories.length ++ " user stories"

/-- Modelled from the spec: the per-story loop of `Export` (§4.4 step 3) — for
each story in input order, derive effort and classification, call `CreateIssue`,
and record the outcome at the story's original index, continuing past failures.
Returns the outcomes and the trace of client calls issued. -/
def exportLoop (client : TicketClientOracle) : List StoryRecord → Nat →
    List ExportOutcome × List ClientCall
  | [], _ => ([], [])
  | s :: rest, i =>
      let points := _estimate_story_points s
      let prio := _determine_priority defaultUrgentVocab s
      let comp := _determine_component defaultComponentTable s
      let call := ClientCall.createIssueCall i s.story prio comp points
      let outcome :=
        match client.createIssueResp i with
        | .ok ref => ExportOutcome.success i ref
        | .error e => ExportOutcome.failure i e
      let next := exportLoop client rest (i + 1)
      (outcome :: next.1, call :: next.2)

/-- Aggregate an outcome list into an `ExportResult` (§4.4 step 4). -/
def mkExportResult (group : Option IssueRef) (outcomes : List ExportOutcome) :
    ExportResult :=
  let exported := outcomes.countP isSuccessOutcome
  let failed := outcomes.countP (fun o => !isSuccessOutcome o)
  { group := group
    outcomes := outcomes
    total_exported := exported
    total_failed := failed
    status := if failed = 0 then .allSucceeded else .partialFailure }

/-- Modelled from the spec: `Export` of the ExportOrchestrator (§4.4; the backend
export service is absent from the provided sources).  Validate, optionally create
the group (short-circuiting on its failure), then run the per-story loop.  Also
returns the trace of TicketClient calls issued, so the no-network-call clauses
can be stated. -/
def Export (client : TicketClientOracle) (stories : List StoryRecord)
    (projectKey : String) (groupSpec : Option GroupSpec) :
    Except TicketError ExportResult × List ClientCall :=
  if projectKey = "" ∨ stories = [] then
    (.error ⟨.validation, "project key and stories must be non-empty"⟩, [])
  else
    match groupSpec with
    | some gs =>
        if gs.create then
          match client.createGroupResp gs.name (groupDescription stories) with
          | .error _ =>
              (.ok { group := none, outcomes := [], total_exported := 0,
                     total_failed := 0, status := .groupFailed },
               [ClientCall.createGroupCall gs.name (groupDescription stories)])
          | .ok gref =>
              let run := exportLoop client stories 0
              (.ok (mkExportResult (some gref) run.1),
               ClientCall.createGroupCall gs.name (groupDescription stories) :: run.2)
        else
          let run := exportLoop client stories 0
          (.ok (mkExportResult none run.1), run.2)
    | none =>
        let run := exportLoop client stories 0
        (.ok (mkExportResult none run.1), run.2)

/-- A JavaScript value as it appears in the `userStories` prop of
`UserStoryList`: either a plain string (legacy format) or an object with a
`story` field and an `acceptance_criteria` array (new format). -/
inductive JSValue
  | str (s : String)
  | obj (story : JSValue) (acceptance_criteria : List String)
deriving DecidableEq, Repr

/-- Translated from `UserStoryList`: `userStories && userStories.length > 0 &&
typeof userStories[0] === 'object'`. -/
def isNewFormat (userStories : List JSValue) : Bool :=
  match userStories with
  | [] => false
  | JSValue.obj _ _ :: _ => true
  | JSValue.str _ :: _ => false

/-- Translated from `UserStoryList`: `isNewFormat ? userStories :
userStories.map(story => ({ story, acceptance_criteria: [] }))`. -/
def normalizeStories (userStories : List JSValue) : List JSValue :=
  if isNewFormat userStories then userStories
  else userStories.map (fun story => JSValue.obj story [])

/-- `exportLoop` yields exactly one outcome per story. -/
theorem exportLoop_length (client : TicketClientOracle) (stories : List StoryRecord)
    (i : Nat) : (exportLoop client stories i).1.length = stories.length := by
  induction stories generalizing i with
  | nil => rfl
  | cons s rest ih => simp [exportLoop, ih]

/-- The `k`-th outcome of `exportLoop` starting at index `i` carries index `i + k`. -/
theorem exportLoop_index (client : TicketClientOracle) (stories : List StoryRecord)
    (i : Nat) :
    ∀ k (hk : k < (exportLoop client stories i).1.length),
      outcomeIndex ((exportLoop client stories i).1.get ⟨k, hk⟩) = i + k := by
  induction stories generalizing i with
  | nil => intro k hk; simp [exportLoop] at hk
  | cons s rest ih =>
      intro k hk
      cases k with
      | zero =>
          simp only [exportLoop]
          cases h : client.createIssueResp i <;> simp [outcomeIndex, h]
      | succ k' =>
          have hb : k' < (exportLoop client rest (i + 1)).1.length := by
            simp only [exportLoop, List.length_cons] at hk
            omega
          have h := ih (i + 1) k' hb
          simp only [exportLoop, Nat.succ_eq_add_one, List.get_cons_succ] at hk ⊢
          exact h.trans (by omega)

/-- Every call issued by `exportLoop` is a per-story issue creation. -/
theorem exportLoop_calls_issue (client : TicketClientOracle)
    (stories : List StoryRecord) (i : Nat) :
    ∀ c ∈ (exportLoop client stories i).2, isIssueCall c = true := by
  induction stories generalizing i with
  | nil => intro c hc; simp [exportLoop] at hc
  | cons s rest ih =>
      intro c hc
      simp only [exportLoop, List.mem_cons] at hc
      rcases hc with rfl | hc
      · rfl
      · exact ih (i + 1) c hc

/-- Successes and failures partition an outcome list. -/
theorem countP_success_add_countP_failure (outcomes : List ExportOutcome) :
    outcomes.countP isSuccessOutcome +
      outcomes.countP (fun o => !isSuccessOutcome o) = outcomes.length := by
  induction outcomes with
  | nil => rfl
  | cons o rest ih =>
      rcases o with ⟨i, r⟩ | ⟨i, e⟩
      · have h1 : isSuccessOutcome (ExportOutcome.success i r) = true := rfl
        simp only [List.countP_cons, List.length_cons, h1, Bool.not_true, if_true]
        simp only [Bool.false_eq_true, if_false]
        omega
      · have h1 : isSuccessOutcome (ExportOutcome.failure i e) = false := rfl
        simp only [List.countP_cons, List.length_cons, h1, Bool.not_false, if_true]
        simp only [Bool.false_eq_true, if_false]
        omega

/-- `List.find?` returns the element at the first index satisfying the predicate. -/
theorem find?_eq_first_sat {α : Type} (p : α → Bool) (l : List α) :
    ∀ i (hi : i < l.length), p (l.get ⟨i, hi⟩) = true →
      (∀ j (hj : j < i), p (l.get ⟨j, Nat.lt_trans hj hi⟩) = false) →
      l.find? p = some (l.get ⟨i, hi⟩) := by
  induction l with
  | nil => intro i hi; simp at hi
  | cons a l ih =>
      intro i hi hp hmin
      cases i with
      | zero =>
          have hpa : p a = true := hp
          simp [List.find?_cons, hpa]
      | succ i' =>
          have ha : p a = false := hmin 0 (Nat.succ_pos i')
          have hi' : i' < l.length := by simpa using Nat.lt_of_succ_lt_succ hi
          have hrec := ih i' hi' (by simpa using hp)
            (fun j hj => by simpa using hmin (j + 1) (Nat.succ_lt_succ hj))
          simp only [List.find?_cons, ha]
          simpa using hrec

/-- C1: for every story record with criteria count `c` and narrative length `l`,
the estimator returns `min 13 (3 + bucket c + bonus l)` where the bucket is
0/2/4/6 for `c ≤ 2` / `3–4` / `5–6` / `≥ 7` and the bonus is 0/1/2 for
`l ≤ 200` / `200 < l ≤ 400` / `l > 400` (strict thresholds, stacking bonuses). -/
theorem estimate_story_points_formula (s : StoryRecord) :
    _estimate_story_points s =
      min 13 (3 + specCriteriaBucket s.acceptance_criteria.length +
        specLengthBonus s.story.length) :=
  estimate_closed_form s

/-- C5: the estimator always lands in `[3, 13]` and is monotonically
non-decreasing in the criteria count and in the narrative length — jointly, so
in particular increasing either input while the other is fixed never decreases
the score. -/
theorem estimate_range_monotone (s₁ s₂ : StoryRecord) :
    (3 ≤ _estimate_story_points s₁ ∧ _estimate_story_points s₁ ≤ 13) ∧
    (s₁.acceptance_criteria.length ≤ s₂.acceptance_criteria.length →
      s₁.story.length ≤ s₂.story.length →
      _estimate_story_points s₁ ≤ _estimate_story_points s₂) := by
  constructor
  · rw [estimate_closed_form]
    unfold specCriteriaBucket specLengthBonus
    split_ifs <;> omega
  · intro hc hl
    rw [estimate_closed_form, estimate_closed_form]
    unfold specCriteriaBucket specLengthBonus
    split_ifs <;> omega

/-- C5 witness: a concrete instance of the monotonicity clause. -/
theorem estimate_range_monotone_witness :
    _estimate_story_points ⟨"short", []⟩ ≤
      _estimate_story_points ⟨"short story", ["a", "b", "c"]⟩ :=
  (estimate_range_monotone ⟨"short", []⟩ ⟨"short story", ["a", "b", "c"]⟩).2
    (by decide) (by decide)

/-- C6: the priority is Medium unless the lowercased narrative contains a term
of the configured urgent vocabulary, in which case it is the higher priority
High; an empty vocabulary always yields Medium; the classifier is total — its
result is always one of the two labels. -/
theorem determine_priority_medium_default (vocab : List String) (s : StoryRecord) :
    (_determine_priority vocab s = "Medium" ∨ _determine_priority vocab s = "High") ∧
    ((¬ ∃ w ∈ vocab, containsSubstr (lowerString s.story) w = true) →
      _determine_priority vocab s = "Medium") ∧
    ((∃ w ∈ vocab, containsSubstr (lowerString s.story) w = true) →
      _determine_priority vocab s = "High") ∧
    (vocab = [] → _determine_priority vocab s = "Medium") := by
  by_cases h : (vocab.any fun word => containsSubstr (lowerString s.story) word) = true
  · have hval : _determine_priority vocab s = "High" := by
      simp [_determine_priority, h]
    refine ⟨Or.inr hval, ?_, fun _ => hval, ?_⟩
    · intro hno
      exact absurd (by simpa using List.any_eq_true.mp h) hno
    · rintro rfl
      simp at h
  · have hval : _determine_priority vocab s = "Medium" := by
      simp only [_determine_priority, if_neg h]
    refine ⟨Or.inl hval, fun _ => hval, ?_, fun _ => hval⟩
    rintro ⟨w, hw, hcon⟩
    exact absurd (List.any_eq_true.mpr ⟨w, hw, hcon⟩) h

/-- C6 witness: an urgent term upgrades to High; the empty vocabulary yields
Medium. -/
theorem determine_priority_medium_default_witness :
    _determine_priority ["critical"] ⟨"Fix the Critical outage", []⟩ = "High" ∧
    _determine_priority ([] : List String) ⟨"Fix the Critical outage", []⟩ = "Medium" :=
  ⟨(determine_priority_medium_default ["critical"] ⟨"Fix the Critical outage", []⟩).2.2.1
      ⟨"critical", by decide, by decide⟩,
   (determine_priority_medium_default [] ⟨"Fix the Critical outage", []⟩).2.2.2 rfl⟩

/-- C7: the component is the label of the first entry, in table order, whose
keyword matches the narrative, and "General" when no entry matches; when several
entries match, the earliest one determines the result. -/
theorem determine_component_first_match (table : List (List String × String))
    (s : StoryRecord) :
    ((∀ e ∈ table, entryMatches (lowerString s.story) e = false) →
      _determine_component table s = "General") ∧
    (∀ i (hi : i < table.length),
      entryMatches (lowerString s.story) (table.get ⟨i, hi⟩) = true →
      (∀ j (hj : j < i),
        entryMatches (lowerString s.story) (table.get ⟨j, Nat.lt_trans hj hi⟩) = false) →
      _determine_component table s = (table.get ⟨i, hi⟩).2) := by
  constructor
  · intro hnone
    have hfind : table.find? (fun e => entryMatches (lowerString s.story) e) = none :=
      List.find?_eq_none.mpr (by intro x hx; simp [hnone x hx])
    simp [_determine_component, hfind]
  · intro i hi hp hmin
    have hfind := find?_eq_first_sat (fun e => entryMatches (lowerString s.story) e)
      table i hi hp hmin
    simp [_determine_component, hfind]

/-- C7 witness: "user" (entry 0) and "database" (entry 1) both match, and the
earlier entry's label wins. -/
theorem determine_component_first_match_witness :
    _determine_component defaultComponentTable ⟨"Update the user database", []⟩ =
      "User Management" := by
  have h := (determine_component_first_match defaultComponentTable
      ⟨"Update the user database", []⟩).2 0 (by decide) (by decide)
    (fun j hj => absurd hj (Nat.not_lt_zero j))
  simpa [defaultComponentTable] using h

/-- C2: every `Export` call that reaches per-story processing yields exactly one
outcome per input story, recorded at the story's original index in input order,
and the exported/failed counts partition the stories. -/
theorem export_outcomes_index_aligned (client : TicketClientOracle)
    (stories : List StoryRecord) (projectKey : String) (groupSpec : Option GroupSpec)
    (hpk : projectKey ≠ "") (hs : stories ≠ [])
    (hgroup : ∀ gs, groupSpec = some gs → gs.create = true →
      ∃ r, client.createGroupResp gs.name (groupDescription stories) = Except.ok r) :
    ∃ res calls, Export client stories projectKey groupSpec = (Except.ok res, calls) ∧
      res.outcomes.length = stories.length ∧
      (∀ k (hk : k < res.outcomes.length), outcomeIndex (res.outcomes.get ⟨k, hk⟩) = k) ∧
      res.total_exported + res.total_failed = stories.length := by
  have hvalid : ¬ (projectKey = "" ∨ stories = []) := by
    rintro (h | h)
    · exact hpk h
    · exact hs h
  have key : ∀ g : Option IssueRef,
      (mkExportResult g (exportLoop client stories 0).1).outcomes.length = stories.length ∧
      (∀ k (hk : k < (mkExportResult g (exportLoop client stories 0).1).outcomes.length),
        outcomeIndex ((mkExportResult g (exportLoop client stories 0).1).outcomes.get
          ⟨k, hk⟩) = k) ∧
      (mkExportResult g (exportLoop client stories 0).1).total_exported +
        (mkExportResult g (exportLoop client stories 0).1).total_failed =
          stories.length := by
    intro g
    refine ⟨by simp [mkExportResult, exportLoop_length], ?_, ?_⟩
    · intro k hk
      have h := exportLoop_index client stories 0 k (by simpa [mkExportResult] using hk)
      simpa [mkExportResult] using h
    · simp only [mkExportResult]
      rw [countP_success_add_countP_failure, exportLoop_length]
  unfold Export
  rw [if_neg hvalid]
  cases hgs : groupSpec with
  | none => exact ⟨_, _, rfl, key none⟩
  | some gs =>
      dsimp only
      by_cases hc : gs.create = true
      · obtain ⟨r, hr⟩ := hgroup gs hgs hc
        simp only [hc, if_true, hr]
        exact ⟨_, _, rfl, key (some r)⟩
      · have hc' : gs.create = false := by
          cases h : gs.create
          · rfl
          · exact absurd h hc
        simp only [hc', Bool.false_eq_true, if_false]
        exact ⟨_, _, rfl, key none⟩

/-- Concrete stories used by the orchestrator witnesses. -/
def demoStories : List StoryRecord :=
  [⟨"As a user, I want to log in", ["enter email", "validate credentials"]⟩,
   ⟨"As an admin, I want reports", []⟩,
   ⟨"As a customer, I want alerts", ["timely"]⟩]

/-- A ticket client whose group creation succeeds and whose issue creation fails
for the story at index 1 only. -/
def flakyClient : TicketClientOracle where
  createGroupResp := fun _ _ => Except.ok ⟨"PROJ-1", none⟩
  createIssueResp := fun i =>
    if i = 1 then Except.error ⟨.network, "request timed out"⟩
    else Except.ok ⟨"PROJ-" ++ toString (i + 2), none⟩

/-- A ticket client for which every call succeeds. -/
def okClient : TicketClientOracle where
  createGroupResp := fun _ _ => Except.ok ⟨"PROJ-1", none⟩
  createIssueResp := fun i => Except.ok ⟨"PROJ-" ++ toString (i + 2), none⟩

/-- A ticket client whose group creation is rejected for bad credentials. -/
def deadClient : TicketClientOracle where
  createGroupResp := fun _ _ => Except.error ⟨.authentication, "credentials rejected"⟩
  createIssueResp := fun i => Except.ok ⟨"PROJ-" ++ toString (i + 2), none⟩

/-- C2 witness: three stories, group succeeds, the middle story fails. -/
theorem export_outcomes_index_aligned_witness :
    ∃ res calls,
      Export flakyClient demoStories "PROJ" (some ⟨"User Stories", true⟩) =
        (Except.ok res, calls) ∧
      res.outcomes.length = demoStories.length ∧
      (∀ k (hk : k < res.outcomes.length), outcomeIndex (res.outcomes.get ⟨k, hk⟩) = k) ∧
      res.total_exported + res.total_failed = demoStories.length :=
  export_outcomes_index_aligned flakyClient demoStories "PROJ"
    (some ⟨"User Stories", true⟩) (by decide) (by decide)
    (fun gs hgs _ => by cases hgs; exact ⟨⟨"PROJ-1", none⟩, rfl⟩)

/-- C3: when a requested group creation fails, `Export` returns status
GroupFailed with no outcomes and no group reference, and the only client call
issued is the group creation — no per-story issue creation happens. -/
theorem export_group_failure_short_circuit (client : TicketClientOracle)
    (stories : List StoryRecord) (projectKey : String) (gs : GroupSpec) (e : TicketError)
    (hpk : projectKey ≠ "") (hs : stories ≠ []) (hcreate : gs.create = true)
    (hfail : client.createGroupResp gs.name (groupDescription stories) =
      Except.error e) :
    Export client stories projectKey (some gs) =
      (Except.ok { group := none, outcomes := [], total_exported := 0,
                   total_failed := 0, status := ExportStatus.groupFailed },
       [ClientCall.createGroupCall gs.name (groupDescription stories)]) ∧
    ∀ c ∈ (Export client stories projectKey (some gs)).2, isIssueCall c = false := by
  have hvalid : ¬ (projectKey = "" ∨ stories = []) := by
    rintro (h | h)
    · exact hpk h
    · exact hs h
  have heq : Export client stories projectKey (some gs) =
      (Except.ok { group := none, outcomes := [], total_exported := 0,
                   total_failed := 0, status := ExportStatus.groupFailed },
       [ClientCall.createGroupCall gs.name (groupDescription stories)]) := by
    unfold Export
    rw [if_neg hvalid]
    dsimp only
    simp only [hcreate, if_true, hfail]
  refine ⟨heq, ?_⟩
  rw [heq]
  intro c hc
  simp only [List.mem_singleton] at hc
  subst hc
  rfl

/-- C3 witness: three stories, authentication failure at group creation. -/
theorem export_group_failure_short_circuit_witness :
    Export deadClient demoStories "PROJ" (some ⟨"User Stories", true⟩) =
      (Except.ok { group := none, outcomes := [], total_exported := 0,
                   total_failed := 0, status := ExportStatus.groupFailed },
       [ClientCall.createGroupCall "User Stories" (groupDescription demoStories)]) ∧
    ∀ c ∈ (Export deadClient demoStories "PROJ" (some ⟨"User Stories", true⟩)).2,
      isIssueCall c = false :=
  export_group_failure_short_circuit deadClient demoStories "PROJ"
    ⟨"User Stories", true⟩ ⟨.authentication, "credentials rejected"⟩
    (by decide) (by decide) rfl rfl

/-- C4: with an empty project key or an empty story list, `Export` fails fast
with a Validation error and issues no client call at all. -/
theorem export_validation_fail_fast (client : TicketClientOracle)
    (stories : List StoryRecord) (projectKey : String) (groupSpec : Option GroupSpec)
    (h : projectKey = "" ∨ stories = []) :
    ∃ err, Export client stories projectKey groupSpec = (Except.error err, []) ∧
      err.kind = ErrorKind.validation := by
  refine ⟨⟨.validation, "project key and stories must be non-empty"⟩, ?_, rfl⟩
  unfold Export
  rw [if_pos h]

/-- C4 witness: an empty story list is rejected without any client call. -/
theorem export_validation_fail_fast_witness :
    ∃ err, Export okClient [] "PROJ" none = (Except.error err, []) ∧
      err.kind = ErrorKind.validation :=
  export_validation_fail_fast okClient [] "PROJ" none (Or.inr rfl)

/-- C8: with no group requested, `Export` creates no group — no CreateGroup call
appears in the trace and the result's group reference is null — while still
producing one outcome per story. -/
theorem export_without_group_spec (client : TicketClientOracle)
    (stories : List StoryRecord) (projectKey : String)
    (hpk : projectKey ≠ "") (hs : stories ≠ []) :
    ∃ res calls, Export client stories projectKey none = (Except.ok res, calls) ∧
      res.group = none ∧
      (∀ name desc, ClientCall.createGroupCall name desc ∉ calls) ∧
      res.outcomes.length = stories.length := by
  have hvalid : ¬ (projectKey = "" ∨ stories = []) := by
    rintro (h | h)
    · exact hpk h
    · exact hs h
  refine ⟨mkExportResult none (exportLoop client stories 0).1,
    (exportLoop client stories 0).2, ?_, rfl, ?_, ?_⟩
  · unfold Export
    rw [if_neg hvalid]
  · intro name desc hmem
    have h := exportLoop_calls_issue client stories 0 _ hmem
    simp [isIssueCall] at h
  · simp [mkExportResult, exportLoop_length]

/-- C8 witness: three stories exported with `groupSpec = none`. -/
theorem export_without_group_spec_witness :
    ∃ res calls, Export okClient demoStories "PROJ" none = (Except.ok res, calls) ∧
      res.group = none ∧
      (∀ name desc, ClientCall.createGroupCall name desc ∉ calls) ∧
      res.outcomes.length = demoStories.length :=
  export_without_group_spec okClient demoStories "PROJ" (by decide) (by decide)

/-- C9: the caller-visible message of every transport/HTTP failure is exactly
the message of its translation into the closed taxonomy (so no raw transport
error leaks through), and a structured non-empty server detail is passed through
verbatim. -/
theorem ticket_error_translation :
    (∀ e : HttpFailure, interceptResponseError e = (translateFailure e).message) ∧
    (∀ status detail, detail ≠ "" →
      (translateFailure (HttpFailure.response status (some detail))).message = detail) := by
  constructor
  · intro e
    rcases e with ⟨status, detail⟩ | _ | m
    · simp only [interceptResponseError, translateFailure]
      split_ifs <;> simp_all
    · rfl
    · rfl
  · intro status detail hd
    simp only [translateFailure]
    split_ifs <;> simp [jsOr, hd]

/-- C9 witness: a structured remote rejection's detail is passed through. -/
theorem ticket_error_translation_witness :
    (translateFailure (HttpFailure.response 422 (some "field epicName is required"))).message
      = "field epicName is required" :=
  ticket_error_translation.2 422 "field epicName is required" (by decide)

/-- C10: a non-empty legacy list of plain strings is normalized element-wise to
records carrying an empty `acceptance_criteria` array, so everything passed
onward has that field; a list already in object form is passed through
unchanged. -/
theorem legacy_story_normalization (us : List JSValue) (hne : us ≠ []) :
    ((∀ v ∈ us, ∃ s, v = JSValue.str s) →
      normalizeStories us = us.map (fun v => JSValue.obj v []) ∧
      ∀ w ∈ normalizeStories us, ∃ v, w = JSValue.obj v []) ∧
    ((∀ v ∈ us, ∃ st cr, v = JSValue.obj st cr) → normalizeStories us = us) := by
  rcases us with _ | ⟨v, rest⟩
  · exact absurd rfl hne
  constructor
  · intro hall
    obtain ⟨s, hs⟩ := hall v (List.mem_cons_self v rest)
    subst hs
    have hnf : isNewFormat (JSValue.str s :: rest) = false := rfl
    constructor
    · simp [normalizeStories, hnf]
    · intro w hw
      simp only [normalizeStories, hnf, Bool.false_eq_true, if_false] at hw
      rcases List.mem_map.mp hw with ⟨v', _, rfl⟩
      exact ⟨v', rfl⟩
  · intro hall
    obtain ⟨st, cr, hv⟩ := hall v (List.mem_cons_self v rest)
    subst hv
    have hnf : isNewFormat (JSValue.obj st cr :: rest) = true := rfl
    simp [normalizeStories, hnf]

/-- C10 witness: a one-element legacy list is wrapped into object form. -/
theorem legacy_story_normalization_witness :
    normalizeStories [JSValue.str "As a user, I want to log in"] =
      [JSValue.str "As a user, I want to log in"].map (fun v => JSValue.obj v []) ∧
    ∀ w ∈ normalizeStories [JSValue.str "As a user, I want to log in"],
      ∃ v, w = JSValue.obj v [] :=
  (legacy_story_normalization [JSValue.str "As a user, I want to log in"] (by decide)).1
    (fun v hv => ⟨"As a user, I want to log in", List.mem_singleton.mp hv⟩)

end StoryExport
